import Mathlib

/-!
Shallow embedding of `src/stm324x9i_eval_nor.c`, the STM324x9I-EVAL board
support driver for the M29W256GL parallel NOR flash.

The driver is a thin layer over the STM32 HAL NOR controller abstraction.
We embed each BSP function as a pure Lean function from the driver state
(the two file-static variables `norHandle` and `Timing`) and the outcomes
of the external HAL calls (modelled as oracles: the boolean result of each
HAL status poll or HAL return code) to the new driver state, the list of
commands issued to the HAL, and the returned status byte.

Machine integers are modelled as `Nat` with explicit reduction modulo
`2 ^ 32` wherever the C code performs 32-bit arithmetic.
-/

namespace NorBsp

/-- Modulus of C `uint32_t` arithmetic. -/
def U32 : Nat := 2 ^ 32

/-! ### Constants

The header `stm324x9i_eval_nor.h` is not part of `src/`; the constants it
defines are modelled from the spec.  Their exact numeric values never
matter to the claims, only that the driver forwards these fixed values.
-/

/-- Modelled from the spec: the fixed base address of the memory-mapped
NOR region (`NOR_DEVICE_ADDR` in the missing header
`stm324x9i_eval_nor.h`); "all addresses are offsets relative to a fixed
base address of the memory-mapped NOR region". -/
def NOR_DEVICE_ADDR : Nat := 0x60000000

/-- Modelled from the spec: the fixed program-operation timeout budget
(`PROGRAM_TIMEOUT` in the missing header). -/
def PROGRAM_TIMEOUT : Nat := 0x00004400

/-- Modelled from the spec: the fixed block-erase timeout budget
(`BLOCKERASE_TIMEOUT` in the missing header). -/
def BLOCKERASE_TIMEOUT : Nat := 0x00A00000

/-- Modelled from the spec: the fixed chip-erase timeout budget
(`CHIPERASE_TIMEOUT` in the missing header). -/
def CHIPERASE_TIMEOUT : Nat := 0x30000000

/-- Modelled from the spec: the OK status value of the two-valued
`OperationStatus` result type (`NOR_STATUS_OK` in the missing header). -/
def NOR_STATUS_OK : Nat := 0

/-- Modelled from the spec: the ERROR status value of the two-valued
`OperationStatus` result type (`NOR_STATUS_ERROR` in the missing header). -/
def NOR_STATUS_ERROR : Nat := 1

/-- Modelled from the spec: ready/busy pin level meaning busy
(`NOR_BUSY_STATE` in the missing header, a GPIO reset level). -/
def NOR_BUSY_STATE : Nat := 0

/-- Modelled from the spec: ready/busy pin level meaning ready
(`NOR_READY_STATE` in the missing header, a GPIO set level). -/
def NOR_READY_STATE : Nat := 1

/-- Modelled from the spec: HAL symbolic constants used by
`BSP_NOR_Init` to populate the configuration record.  Values are opaque
tags taken from the controller abstraction headers (not in `src/`). -/
def FMC_NORSRAM_DEVICE : Nat := 0xA0000000

/-- Modelled from the spec: extended-register block of the controller. -/
def FMC_NORSRAM_EXTENDED_DEVICE : Nat := 0xA0000104

/-- Modelled from the spec: bank-1 selector of the controller. -/
def FMC_NORSRAM_BANK1 : Nat := 0

/-- Modelled from the spec: address/data multiplexing disabled. -/
def FMC_DATA_ADDRESS_MUX_DISABLE : Nat := 0

/-- Modelled from the spec: memory-type selector for NOR. -/
def FMC_MEMORY_TYPE_NOR : Nat := 8

/-- Modelled from the spec: 16-bit data-bus width selector
(`NOR_MEMORY_WIDTH` in the missing header). -/
def NOR_MEMORY_WIDTH : Nat := 0x10

/-- Modelled from the spec: burst access mode selector
(`NOR_BURSTACCESS` in the missing header, burst disabled). -/
def NOR_BURSTACCESS : Nat := 0

/-- Modelled from the spec: wait-signal polarity low. -/
def FMC_WAIT_SIGNAL_POLARITY_LOW : Nat := 0

/-- Modelled from the spec: wrap mode disabled. -/
def FMC_WRAP_MODE_DISABLE : Nat := 0

/-- Modelled from the spec: wait timing before wait state. -/
def FMC_WAIT_TIMING_BEFORE_WS : Nat := 0

/-- Modelled from the spec: write operation enabled. -/
def FMC_WRITE_OPERATION_ENABLE : Nat := 0x1000

/-- Modelled from the spec: wait signal enabled. -/
def FMC_WAIT_SIGNAL_ENABLE : Nat := 0x2000

/-- Modelled from the spec: extended mode disabled. -/
def FMC_EXTENDED_MODE_DISABLE : Nat := 0

/-- Modelled from the spec: asynchronous wait enabled. -/
def FMC_ASYNCHRONOUS_WAIT_ENABLE : Nat := 0x8000

/-- Modelled from the spec: write burst selector
(`NOR_WRITEBURST` in the missing header, disabled). -/
def NOR_WRITEBURST : Nat := 0

/-- Modelled from the spec: continuous clock feature selector
(`CONTINUOUSCLOCK_FEATURE` in the missing header). -/
def CONTINUOUSCLOCK_FEATURE : Nat := 0

/-- Modelled from the spec: access mode A selector. -/
def FMC_ACCESS_MODE_A : Nat := 0

/-! ### Data model -/

/-- The controller timing record (`FMC_NORSRAM_TimingTypeDef`),
embedded field for field from the HAL structure the driver populates. -/
structure FMC_NORSRAM_TimingTypeDef where
  AddressSetupTime : Nat
  AddressHoldTime : Nat
  DataSetupTime : Nat
  BusTurnAroundDuration : Nat
  CLKDivision : Nat
  DataLatency : Nat
  AccessMode : Nat
  deriving DecidableEq, Repr

/-- The controller mode record (`FMC_NORSRAM_InitTypeDef`), the `Init`
sub-record of the NOR handle the driver populates. -/
structure FMC_NORSRAM_InitTypeDef where
  NSBank : Nat
  DataAddressMux : Nat
  MemoryType : Nat
  MemoryDataWidth : Nat
  BurstAccessMode : Nat
  WaitSignalPolarity : Nat
  WrapMode : Nat
  WaitSignalActive : Nat
  WriteOperation : Nat
  WaitSignal : Nat
  ExtendedMode : Nat
  AsynchronousWait : Nat
  WriteBurst : Nat
  ContinuousClock : Nat
  deriving DecidableEq, Repr

/-- The NOR handle (`NOR_HandleTypeDef`): the fields the driver writes.
The opaque HAL-internal fields are irrelevant to the driver code. -/
structure NOR_HandleTypeDef where
  Instance : Nat
  Extended : Nat
  Init : FMC_NORSRAM_InitTypeDef
  deriving DecidableEq, Repr

/-- The driver state: the two file-static variables of
`stm324x9i_eval_nor.c`, `norHandle` and `Timing` (lines 71 to 72). -/
structure DriverState where
  norHandle : NOR_HandleTypeDef
  Timing : FMC_NORSRAM_TimingTypeDef
  deriving DecidableEq, Repr

/-- One command issued by the driver to the HAL controller abstraction.
Arguments record exactly what the driver passes (after 32-bit reduction). -/
inductive Cmd : Type where
  | readBuffer (addr : Nat) (size : Nat)
  | program (addr : Nat) (word : Nat)
  | programBuffer (addr : Nat) (size : Nat)
  | eraseBlock (blockAddr : Nat) (addr : Nat)
  | eraseChip (addr : Nat)
  | getStatus (addr : Nat) (timeout : Nat)
  | readId
  | returnToReadMode
  | mspInit
  | halNorInit (timing : FMC_NORSRAM_TimingTypeDef)
      (extTiming : FMC_NORSRAM_TimingTypeDef)
  deriving DecidableEq, Repr

/-- Recogniser for single-word program commands. -/
def Cmd.isProgram : Cmd → Bool
  | Cmd.program _ _ => true
  | _ => false

/-- Recogniser for status-poll commands. -/
def Cmd.isGetStatus : Cmd → Bool
  | Cmd.getStatus _ _ => true
  | _ => false

/-! ### Operations

Each `BSP_NOR_*` function of the C file becomes a function of the driver
state and of oracles for the results of the external HAL calls.  It
returns the new driver state, the trace of commands issued, and the
status byte returned to the caller (omitted for the `void` function).
-/

/-- `BSP_NOR_Init` (C lines 82 to 122): assigns each field of `norHandle`
and `Timing`, calls `BSP_NOR_MspInit`, then `HAL_NOR_Init` with the same
timing record for both the standard and the extended profile.  `halOk` is
the oracle for `HAL_NOR_Init(...) == HAL_OK`. -/
def BSP_NOR_Init (s : DriverState) (halOk : Bool) :
    DriverState × List Cmd × Nat :=
  let h0 := { s.norHandle with
    Instance := FMC_NORSRAM_DEVICE
    Extended := FMC_NORSRAM_EXTENDED_DEVICE }
  let t := { s.Timing with
    AddressSetupTime := 8
    AddressHoldTime := 3
    DataSetupTime := 9
    BusTurnAroundDuration := 0
    CLKDivision := 2
    DataLatency := 2
    AccessMode := FMC_ACCESS_MODE_A }
  let h := { h0 with Init := { h0.Init with
    NSBank := FMC_NORSRAM_BANK1
    DataAddressMux := FMC_DATA_ADDRESS_MUX_DISABLE
    MemoryType := FMC_MEMORY_TYPE_NOR
    MemoryDataWidth := NOR_MEMORY_WIDTH
    BurstAccessMode := NOR_BURSTACCESS
    WaitSignalPolarity := FMC_WAIT_SIGNAL_POLARITY_LOW
    WrapMode := FMC_WRAP_MODE_DISABLE
    WaitSignalActive := FMC_WAIT_TIMING_BEFORE_WS
    WriteOperation := FMC_WRITE_OPERATION_ENABLE
    WaitSignal := FMC_WAIT_SIGNAL_ENABLE
    ExtendedMode := FMC_EXTENDED_MODE_DISABLE
    AsynchronousWait := FMC_ASYNCHRONOUS_WAIT_ENABLE
    WriteBurst := NOR_WRITEBURST
    ContinuousClock := CONTINUOUSCLOCK_FEATURE } }
  ({ norHandle := h, Timing := t },
   [Cmd.mspInit, Cmd.halNorInit t t],
   if halOk then NOR_STATUS_OK else NOR_STATUS_ERROR)

/-- `BSP_NOR_ReadData` (C lines 131 to 141): one `HAL_NOR_ReadBuffer`
call at `NOR_DEVICE_ADDR + uwStartAddress`; `readOk` is the oracle for
its result being `HAL_OK`. -/
def BSP_NOR_ReadData (s : DriverState) (readOk : Bool)
    (uwStartAddress : Nat) (uwDataSize : Nat) :
    DriverState × List Cmd × Nat :=
  (s, [Cmd.readBuffer ((NOR_DEVICE_ADDR + uwStartAddress) % U32) uwDataSize],
   if readOk then NOR_STATUS_OK else NOR_STATUS_ERROR)

/-- `BSP_NOR_ReturnToReadMode` (C lines 146 to 149): one
`HAL_NOR_ReturnToReadMode` call, no status poll, no return value. -/
def BSP_NOR_ReturnToReadMode (s : DriverState) : DriverState × List Cmd :=
  (s, [Cmd.returnToReadMode])

/-- The `while(index > 0)` loop of `BSP_NOR_WriteData` (C lines 162 to
177).  `polls k` is the oracle for the result of the `k`-th
`HAL_NOR_GetStatus` call being `NOR_SUCCESS`; `data i` is the halfword
`pData[i]`; `index` is the remaining iteration count. -/
def writeDataLoop (polls : Nat → Bool) (data : Nat → Nat) :
    Nat → Nat → Nat → Nat → List Cmd × Nat
  | _, _, _, 0 => ([], NOR_STATUS_OK)
  | k, uwStartAddress, dIdx, index + 1 =>
    let cs := [Cmd.program ((NOR_DEVICE_ADDR + uwStartAddress) % U32)
                 (data dIdx),
               Cmd.getStatus NOR_DEVICE_ADDR PROGRAM_TIMEOUT]
    if polls k then
      let r := writeDataLoop polls data (k + 1)
        ((uwStartAddress + 2) % U32) (dIdx + 1) index
      (cs ++ r.1, r.2)
    else
      (cs, NOR_STATUS_ERROR)

/-- `BSP_NOR_WriteData` (C lines 158 to 180): word-at-a-time program
loop, fail fast on the first failing status poll. -/
def BSP_NOR_WriteData (s : DriverState) (polls : Nat → Bool)
    (uwStartAddress : Nat) (data : Nat → Nat) (uwDataSize : Nat) :
    DriverState × List Cmd × Nat :=
  (s, writeDataLoop polls data 0 uwStartAddress 0 uwDataSize)

/-- `BSP_NOR_ProgramData` (C lines 189 to 203): one
`HAL_NOR_ProgramBuffer` call, at `uwStartAddress` exactly as supplied by
the caller (no base added in the C source, line 192), then one status
poll; `pollOk` is the oracle for the poll reporting `NOR_SUCCESS`. -/
def BSP_NOR_ProgramData (s : DriverState) (pollOk : Bool)
    (uwStartAddress : Nat) (uwDataSize : Nat) :
    DriverState × List Cmd × Nat :=
  (s, [Cmd.programBuffer uwStartAddress uwDataSize,
       Cmd.getStatus NOR_DEVICE_ADDR PROGRAM_TIMEOUT],
   if pollOk then NOR_STATUS_OK else NOR_STATUS_ERROR)

/-- `BSP_NOR_Erase_Block` (C lines 210 to 224): one block-erase command
then one status poll with `BLOCKERASE_TIMEOUT`. -/
def BSP_NOR_Erase_Block (s : DriverState) (pollOk : Bool)
    (BlockAddress : Nat) : DriverState × List Cmd × Nat :=
  (s, [Cmd.eraseBlock BlockAddress NOR_DEVICE_ADDR,
       Cmd.getStatus NOR_DEVICE_ADDR BLOCKERASE_TIMEOUT],
   if pollOk then NOR_STATUS_OK else NOR_STATUS_ERROR)

/-- `BSP_NOR_Erase_Chip` (C lines 230 to 244): one chip-erase command
then one status poll with `CHIPERASE_TIMEOUT`. -/
def BSP_NOR_Erase_Chip (s : DriverState) (pollOk : Bool) :
    DriverState × List Cmd × Nat :=
  (s, [Cmd.eraseChip NOR_DEVICE_ADDR,
       Cmd.getStatus NOR_DEVICE_ADDR CHIPERASE_TIMEOUT],
   if pollOk then NOR_STATUS_OK else NOR_STATUS_ERROR)

/-- `BSP_NOR_Read_ID` (C lines 251 to 261): one `HAL_NOR_Read_ID` call;
`readOk` is the oracle for its result being `HAL_OK`. -/
def BSP_NOR_Read_ID (s : DriverState) (readOk : Bool) :
    DriverState × List Cmd × Nat :=
  (s, [Cmd.readId],
   if readOk then NOR_STATUS_OK else NOR_STATUS_ERROR)

/-- One polling loop of `HAL_NOR_MspWait` (C lines 318 to 321 and 326 to
329): reads the pin stream `pin` at successive times starting at `t`,
loops while the pin differs from `target` and the countdown is positive,
decrementing the countdown each iteration.  Returns the number of body
iterations executed and the next read index. -/
def waitLoop (pin : Nat → Nat) (target : Nat) : Nat → Nat → Nat × Nat
  | t, 0 => (0, t + 1)
  | t, timeout + 1 =>
    if pin t = target then (0, t + 1)
    else
      let r := waitLoop pin target (t + 1) timeout
      (r.1 + 1, r.2)

/-- `HAL_NOR_MspWait` (C lines 313 to 330): polls the ready/busy pin,
first for the busy level then for the ready level, each with a countdown
starting at `Timeout`.  Returns the iteration counts of the two loops. -/
def HAL_NOR_MspWait (pin : Nat → Nat) (Timeout : Nat) : Nat × Nat :=
  let r1 := waitLoop pin NOR_BUSY_STATE 0 Timeout
  let r2 := waitLoop pin NOR_READY_STATE r1.2 Timeout
  (r1.1, r2.1)

/-- A throwaway concrete driver state, used to instantiate theorems. -/
def s0 : DriverState :=
  { norHandle :=
      { Instance := 0, Extended := 0,
        Init :=
          { NSBank := 0, DataAddressMux := 0, MemoryType := 0,
            MemoryDataWidth := 0, BurstAccessMode := 0,
            WaitSignalPolarity := 0, WrapMode := 0, WaitSignalActive := 0,
            WriteOperation := 0, WaitSignal := 0, ExtendedMode := 0,
            AsynchronousWait := 0, WriteBurst := 0, ContinuousClock := 0 } },
    Timing :=
      { AddressSetupTime := 0, AddressHoldTime := 0, DataSetupTime := 0,
        BusTurnAroundDuration := 0, CLKDivision := 0, DataLatency := 0,
        AccessMode := 0 } }

/-! ### Spec-side descriptions

These definitions follow the wording of the spec (the i-th cycle programs
the i-th data word at base + start + 2 i, then polls with the program
timeout); the refinement theorems below compare the embedded driver code
against them. -/

/-- The `i`-th program-then-poll cycle the spec describes for `WriteData`:
program the `i`-th data word at `base + start + 2 * i` (32-bit), then
poll status with the `PROGRAM_TIMEOUT` budget. -/
def progPollCycle (data : Nat → Nat) (uwStartAddress i : Nat) : List Cmd :=
  [Cmd.program ((NOR_DEVICE_ADDR + uwStartAddress + 2 * i) % U32) (data i),
   Cmd.getStatus NOR_DEVICE_ADDR PROGRAM_TIMEOUT]

/-- The first `n` program-then-poll cycles, concatenated in order. -/
def progPollCycles (data : Nat → Nat) (uwStartAddress n : Nat) : List Cmd :=
  ((List.range n).map (progPollCycle data uwStartAddress)).flatten

/-- The fixed board timing record the spec requires `Initialize` to
install (C lines 88 to 94). -/
def boardTiming : FMC_NORSRAM_TimingTypeDef :=
  { AddressSetupTime := 8, AddressHoldTime := 3, DataSetupTime := 9,
    BusTurnAroundDuration := 0, CLKDivision := 2, DataLatency := 2,
    AccessMode := FMC_ACCESS_MODE_A }

/-- The fixed board mode record the spec requires `Initialize` to
install (C lines 96 to 109). -/
def boardModeConfig : FMC_NORSRAM_InitTypeDef :=
  { NSBank := FMC_NORSRAM_BANK1,
    DataAddressMux := FMC_DATA_ADDRESS_MUX_DISABLE,
    MemoryType := FMC_MEMORY_TYPE_NOR,
    MemoryDataWidth := NOR_MEMORY_WIDTH,
    BurstAccessMode := NOR_BURSTACCESS,
    WaitSignalPolarity := FMC_WAIT_SIGNAL_POLARITY_LOW,
    WrapMode := FMC_WRAP_MODE_DISABLE,
    WaitSignalActive := FMC_WAIT_TIMING_BEFORE_WS,
    WriteOperation := FMC_WRITE_OPERATION_ENABLE,
    WaitSignal := FMC_WAIT_SIGNAL_ENABLE,
    ExtendedMode := FMC_EXTENDED_MODE_DISABLE,
    AsynchronousWait := FMC_ASYNCHRONOUS_WAIT_ENABLE,
    WriteBurst := NOR_WRITEBURST,
    ContinuousClock := CONTINUOUSCLOCK_FEATURE }

/-! ### Helper lemmas -/

/-- Peeling the first element off a flattened map over `List.range`. -/
theorem flatten_map_range_succ {α : Type} (f : Nat → List α) (n : Nat) :
    ((List.range (n + 1)).map f).flatten =
      f 0 ++ ((List.range n).map (fun i => f (i + 1))).flatten := by
  rw [List.range_succ_eq_map]
  simp [List.map_map, Function.comp_def]

/-- Unrolling the first program-then-poll cycle: the cycles for data
starting at index `dIdx` and address `addr` are the cycle at `addr`
followed by the cycles for data starting at `dIdx + 1` and the 32-bit
incremented address.  This matches one iteration of the C write loop. -/
theorem progPollCycles_shift (data : Nat → Nat) (addr dIdx n : Nat) :
    progPollCycles (fun m => data (dIdx + m)) addr (n + 1) =
      [Cmd.program ((NOR_DEVICE_ADDR + addr) % U32) (data dIdx),
       Cmd.getStatus NOR_DEVICE_ADDR PROGRAM_TIMEOUT] ++
      progPollCycles (fun m => data (dIdx + 1 + m)) ((addr + 2) % U32) n := by
  rw [progPollCycles, flatten_map_range_succ]
  congr 1
  rw [progPollCycles]
  congr 1
  congr 1
  funext i
  have ha : (NOR_DEVICE_ADDR + addr + 2 * (i + 1)) % U32 =
      (NOR_DEVICE_ADDR + (addr + 2) % U32 + 2 * i) % U32 := by
    simp only [NOR_DEVICE_ADDR, U32]
    omega
  have hd : dIdx + (i + 1) = dIdx + 1 + i := by omega
  simp only [progPollCycle, ha, hd]

/-- Each polling loop of `HAL_NOR_MspWait` runs at most as many body
iterations as its countdown start value. -/
theorem waitLoop_iterations_le (pin : Nat → Nat) (target : Nat) :
    ∀ (T t : Nat), (waitLoop pin target t T).1 ≤ T := by
  intro T
  induction T with
  | zero => intro t; simp [waitLoop]
  | succ T ih =>
    intro t
    simp only [waitLoop]
    split
    · simp
    · have h := ih (t + 1)
      simp only []
      omega

/-- The write loop with all status polls succeeding produces exactly the
spec's program-then-poll cycles and returns OK (generalised over the
poll counter, current address and data index for the induction). -/
theorem writeDataLoop_all_ok (polls : Nat → Bool) (data : Nat → Nat) :
    ∀ (n k addr dIdx : Nat), (∀ i, i < n → polls (k + i) = true) →
    writeDataLoop polls data k addr dIdx n =
      (progPollCycles (fun m => data (dIdx + m)) addr n, NOR_STATUS_OK) := by
  intro n
  induction n with
  | zero => intro k addr dIdx _; rfl
  | succ n ih =>
    intro k addr dIdx h
    have hk : polls k = true := by have := h 0 (by omega); simpa using this
    have hrec := ih (k + 1) ((addr + 2) % U32) (dIdx + 1)
      (fun i hi => by
        have := h (i + 1) (by omega)
        rw [show k + 1 + i = k + (i + 1) by omega]
        exact this)
    rw [progPollCycles_shift data addr dIdx n]
    simp only [writeDataLoop, hk, eq_self_iff_true, if_true, hrec]

/-- The write loop stops at the first failing status poll: if the polls
before index `j` succeed and poll `j` fails, the loop performs exactly
`j + 1` cycles and returns ERROR. -/
theorem writeDataLoop_first_fail (polls : Nat → Bool) (data : Nat → Nat) :
    ∀ (j k addr dIdx n : Nat), j < n →
    (∀ i, i < j → polls (k + i) = true) → polls (k + j) = false →
    writeDataLoop polls data k addr dIdx n =
      (progPollCycles (fun m => data (dIdx + m)) addr (j + 1),
       NOR_STATUS_ERROR) := by
  intro j
  induction j with
  | zero =>
    intro k addr dIdx n hj _ h2
    obtain ⟨m, rfl⟩ : ∃ m, n = m + 1 := ⟨n - 1, by omega⟩
    have hk : polls k = false := by simpa using h2
    rw [progPollCycles_shift data addr dIdx 0]
    simp only [writeDataLoop, hk, if_false, Bool.false_eq_true, progPollCycles,
      List.range_zero, List.map_nil, List.flatten_nil, List.append_nil]
  | succ j ih =>
    intro k addr dIdx n hj h1 h2
    obtain ⟨m, rfl⟩ : ∃ m, n = m + 1 := ⟨n - 1, by omega⟩
    have hk : polls k = true := by have := h1 0 (by omega); simpa using this
    have hrec := ih (k + 1) ((addr + 2) % U32) (dIdx + 1) m (by omega)
      (fun i hi => by
        have := h1 (i + 1) (by omega)
        rw [show k + 1 + i = k + (i + 1) by omega]
        exact this)
      (by rw [show k + 1 + j = k + (j + 1) by omega]; exact h2)
    rw [progPollCycles_shift data addr dIdx (j + 1)]
    simp only [writeDataLoop, hk, eq_self_iff_true, if_true, hrec]

/-- If the write loop returns OK, every status poll it reached succeeded. -/
theorem writeDataLoop_ok_all_polls (polls : Nat → Bool) (data : Nat → Nat) :
    ∀ (n k addr dIdx : Nat),
    (writeDataLoop polls data k addr dIdx n).2 = NOR_STATUS_OK →
    ∀ i, i < n → polls (k + i) = true := by
  intro n
  induction n with
  | zero => intro k addr dIdx _ i hi; omega
  | succ n ih =>
    intro k addr dIdx hok i hi
    by_cases hk : polls k = true
    · have hrest := ih (k + 1) ((addr + 2) % U32) (dIdx + 1) (by
        have h2 := hok
        simp only [writeDataLoop, hk, eq_self_iff_true, if_true] at h2
        exact h2)
      match i with
      | 0 => simpa using hk
      | i + 1 =>
        have h3 := hrest i (by omega)
        rw [show k + (i + 1) = k + 1 + i by omega]
        exact h3
    · exfalso
      have hkf : polls k = false := by simpa using hk
      have h2 := hok
      simp [writeDataLoop, hkf, NOR_STATUS_OK, NOR_STATUS_ERROR] at h2

/-- Each program-then-poll cycle contains exactly one program command. -/
theorem progPollCycles_countP (data : Nat → Nat) (addr : Nat) :
    ∀ n, (progPollCycles data addr n).countP Cmd.isProgram = n := by
  intro n
  induction n with
  | zero => rfl
  | succ n ih =>
    rw [progPollCycles, List.range_succ, List.map_append, List.flatten_append,
      List.countP_append]
    rw [progPollCycles] at ih
    rw [ih]
    rfl

/-! ### Claims -/

/-- C1, counterexample: the claim that every data-path operation issues
its controller command at the fixed base address plus the
caller-supplied offset is false for `BSP_NOR_ProgramData`: at start
address 4 its buffered-program command is issued at address 4 itself,
not at `NOR_DEVICE_ADDR + 4` (C line 192 forwards `uwStartAddress`
without adding `NOR_DEVICE_ADDR`). -/
theorem C1_base_offset_counterexample :
    ¬ (BSP_NOR_ProgramData s0 true 4 1).2.1 =
        [Cmd.programBuffer ((NOR_DEVICE_ADDR + 4) % U32) 1,
         Cmd.getStatus NOR_DEVICE_ADDR PROGRAM_TIMEOUT] := by
  decide

/-- C1, amended: `BSP_NOR_ReadData` and `BSP_NOR_WriteData` add the
fixed base `NOR_DEVICE_ADDR` to the caller-supplied start address
(32-bit arithmetic) before forwarding it to the controller abstraction,
while `BSP_NOR_ProgramData` forwards the caller-supplied start address
to the controller unchanged. -/
theorem C1_base_offset_amended (s : DriverState) (ok : Bool)
    (polls : Nat → Bool) (data : Nat → Nat) (addr n : Nat) (hn : 0 < n) :
    (BSP_NOR_ReadData s ok addr n).2.1 =
      [Cmd.readBuffer ((NOR_DEVICE_ADDR + addr) % U32) n]
  ∧ (BSP_NOR_WriteData s polls addr data n).2.1.head? =
      some (Cmd.program ((NOR_DEVICE_ADDR + addr) % U32) (data 0))
  ∧ (BSP_NOR_ProgramData s ok addr n).2.1 =
      [Cmd.programBuffer addr n,
       Cmd.getStatus NOR_DEVICE_ADDR PROGRAM_TIMEOUT] := by
  refine ⟨rfl, ?_, rfl⟩
  obtain ⟨m, rfl⟩ : ∃ m, n = m + 1 := ⟨n - 1, by omega⟩
  by_cases hk : polls 0 = true
  · simp [BSP_NOR_WriteData, writeDataLoop, hk]
  · have hkf : polls 0 = false := by simpa using hk
    simp [BSP_NOR_WriteData, writeDataLoop, hkf]

/-- C1 witness: the amended statement at concrete inputs. -/
theorem C1_base_offset_amended_witness :
    (BSP_NOR_ReadData s0 true 4 2).2.1 =
      [Cmd.readBuffer ((NOR_DEVICE_ADDR + 4) % U32) 2]
  ∧ (BSP_NOR_WriteData s0 (fun _ => true) 4 (fun i => i) 2).2.1.head? =
      some (Cmd.program ((NOR_DEVICE_ADDR + 4) % U32) 0)
  ∧ (BSP_NOR_ProgramData s0 true 4 2).2.1 =
      [Cmd.programBuffer 4 2,
       Cmd.getStatus NOR_DEVICE_ADDR PROGRAM_TIMEOUT] :=
  C1_base_offset_amended s0 true (fun _ => true) (fun i => i) 4 2 (by decide)

/-- C2: when every status poll succeeds, `BSP_NOR_WriteData` with count
`n` issues exactly the `n` program-then-poll cycles — the `i`-th cycle
programs the `i`-th data word at `NOR_DEVICE_ADDR + addr + 2 * i`
(32-bit) and then polls with the `PROGRAM_TIMEOUT` budget — and returns
OK. -/
theorem C2_writeData_all_ok (s : DriverState) (polls : Nat → Bool)
    (data : Nat → Nat) (addr n : Nat) (h : ∀ i, i < n → polls i = true) :
    BSP_NOR_WriteData s polls addr data n =
      (s, progPollCycles data addr n, NOR_STATUS_OK) := by
  have hmain := writeDataLoop_all_ok polls data n 0 addr 0
    (fun i hi => by simpa using h i hi)
  rw [BSP_NOR_WriteData, hmain]
  have hdz : (fun m => data (0 + m)) = data :=
    funext fun m => by rw [Nat.zero_add]
  rw [hdz]

/-- C2 witness: two words, all polls succeeding. -/
theorem C2_writeData_all_ok_witness :
    BSP_NOR_WriteData s0 (fun _ => true) 6 (fun i => 10 + i) 2 =
      (s0, progPollCycles (fun i => 10 + i) 6 2, NOR_STATUS_OK) :=
  C2_writeData_all_ok s0 (fun _ => true) (fun i => 10 + i) 6 2
    (fun _ _ => rfl)

/-- C3: if the status polls for the first `j` programmed words succeed
and the poll after word `j` (0-based) fails, `BSP_NOR_WriteData`
performs exactly the first `j + 1` program-then-poll cycles and returns
ERROR — so exactly `j + 1` program commands are issued, none after the
failing poll, and the trace keeps the earlier program commands (no
rollback command of any kind); moreover WriteData returns OK only when
every status poll succeeds. -/
theorem C3_writeData_fail_fast (s : DriverState) (polls : Nat → Bool)
    (data : Nat → Nat) (addr n j : Nat) (hj : j < n)
    (h1 : ∀ i, i < j → polls i = true) (h2 : polls j = false) :
    (BSP_NOR_WriteData s polls addr data n =
      (s, progPollCycles data addr (j + 1), NOR_STATUS_ERROR))
  ∧ (progPollCycles data addr (j + 1)).countP Cmd.isProgram = j + 1
  ∧ (∀ (polls2 : Nat → Bool) (n2 : Nat),
      (BSP_NOR_WriteData s polls2 addr data n2).2.2 = NOR_STATUS_OK →
      ∀ i, i < n2 → polls2 i = true) := by
  refine ⟨?_, progPollCycles_countP data addr (j + 1), ?_⟩
  · have hmain := writeDataLoop_first_fail polls data j 0 addr 0 n hj
      (fun i hi => by simpa using h1 i hi) (by simpa using h2)
    rw [BSP_NOR_WriteData, hmain]
    have hdz : (fun m => data (0 + m)) = data :=
      funext fun m => by rw [Nat.zero_add]
    rw [hdz]
  · intro polls2 n2 hok i hi
    have h3 := writeDataLoop_ok_all_polls polls2 data n2 0 addr 0 hok i hi
    simpa using h3

/-- C3 witness: three words requested, the second status poll fails. -/
theorem C3_writeData_fail_fast_witness :
    (BSP_NOR_WriteData s0 (fun i => i == 0) 6 (fun i => 10 + i) 3 =
      (s0, progPollCycles (fun i => 10 + i) 6 2, NOR_STATUS_ERROR))
  ∧ (progPollCycles (fun i => 10 + i) 6 2).countP Cmd.isProgram = 2
  ∧ (∀ (polls2 : Nat → Bool) (n2 : Nat),
      (BSP_NOR_WriteData s0 polls2 6 (fun i => 10 + i) n2).2.2 =
        NOR_STATUS_OK →
      ∀ i, i < n2 → polls2 i = true) :=
  C3_writeData_fail_fast s0 (fun i => i == 0) (fun i => 10 + i) 6 3 1
    (by omega)
    (fun i hi => by
      have h : i = 0 := by omega
      subst h
      rfl)
    rfl

/-- C4: `BSP_NOR_ProgramData` issues exactly one buffered-program
command for the whole block followed by exactly one status poll with the
`PROGRAM_TIMEOUT` budget, and returns OK iff that poll succeeds. -/
theorem C4_programData_single_cycle (s : DriverState) (pollOk : Bool)
    (addr n : Nat) :
    (BSP_NOR_ProgramData s pollOk addr n).2.1 =
      [Cmd.programBuffer addr n,
       Cmd.getStatus NOR_DEVICE_ADDR PROGRAM_TIMEOUT]
  ∧ ((BSP_NOR_ProgramData s pollOk addr n).2.2 = NOR_STATUS_OK ↔
      pollOk = true) := by
  refine ⟨rfl, ?_⟩
  cases pollOk <;> simp [BSP_NOR_ProgramData, NOR_STATUS_OK, NOR_STATUS_ERROR]

/-- C5: `BSP_NOR_Init` populates the whole configuration record with
the board's fixed timing and mode constants, invokes the board-setup
hook, then opens the device handle passing the same timing record for
both the standard and the extended profile, and returns OK iff the
controller open call succeeds. -/
theorem C5_init_config_and_open (s : DriverState) (halOk : Bool) :
    (BSP_NOR_Init s halOk).1 =
      { norHandle :=
          { Instance := FMC_NORSRAM_DEVICE,
            Extended := FMC_NORSRAM_EXTENDED_DEVICE,
            Init := boardModeConfig },
        Timing := boardTiming }
  ∧ (BSP_NOR_Init s halOk).2.1 =
      [Cmd.mspInit, Cmd.halNorInit boardTiming boardTiming]
  ∧ ((BSP_NOR_Init s halOk).2.2 = NOR_STATUS_OK ↔ halOk = true) := by
  refine ⟨rfl, rfl, ?_⟩
  cases halOk <;> simp [BSP_NOR_Init, NOR_STATUS_OK, NOR_STATUS_ERROR]

/-- C6: `BSP_NOR_Erase_Block` issues exactly one block-erase command
then exactly one status poll with `BLOCKERASE_TIMEOUT`, and
`BSP_NOR_Erase_Chip` issues exactly one chip-erase command then exactly
one status poll with `CHIPERASE_TIMEOUT`; each returns OK iff its poll
succeeds. -/
theorem C6_erase_single_cycle (s : DriverState) (okB okC : Bool)
    (blockAddr : Nat) :
    (BSP_NOR_Erase_Block s okB blockAddr).2.1 =
      [Cmd.eraseBlock blockAddr NOR_DEVICE_ADDR,
       Cmd.getStatus NOR_DEVICE_ADDR BLOCKERASE_TIMEOUT]
  ∧ ((BSP_NOR_Erase_Block s okB blockAddr).2.2 = NOR_STATUS_OK ↔
      okB = true)
  ∧ (BSP_NOR_Erase_Chip s okC).2.1 =
      [Cmd.eraseChip NOR_DEVICE_ADDR,
       Cmd.getStatus NOR_DEVICE_ADDR CHIPERASE_TIMEOUT]
  ∧ ((BSP_NOR_Erase_Chip s okC).2.2 = NOR_STATUS_OK ↔ okC = true) := by
  refine ⟨rfl, ?_, rfl, ?_⟩
  · cases okB <;> simp [BSP_NOR_Erase_Block, NOR_STATUS_OK, NOR_STATUS_ERROR]
  · cases okC <;> simp [BSP_NOR_Erase_Chip, NOR_STATUS_OK, NOR_STATUS_ERROR]

/-- C7: the configuration record is modified only by `BSP_NOR_Init`,
which assigns every one of its fields on each call — the post-`Init`
driver state is the same whatever the prior state was (wholesale
replacement) — and every other public operation returns the driver
state (the `Timing` record and the handle configuration) unchanged. -/
theorem C7_config_frame (s : DriverState) (ok : Bool) (polls : Nat → Bool)
    (data : Nat → Nat) (addr n blockAddr : Nat) (halOk : Bool) :
    (BSP_NOR_ReadData s ok addr n).1 = s
  ∧ (BSP_NOR_WriteData s polls addr data n).1 = s
  ∧ (BSP_NOR_ProgramData s ok addr n).1 = s
  ∧ (BSP_NOR_Erase_Block s ok blockAddr).1 = s
  ∧ (BSP_NOR_Erase_Chip s ok).1 = s
  ∧ (BSP_NOR_Read_ID s ok).1 = s
  ∧ (BSP_NOR_ReturnToReadMode s).1 = s
  ∧ ∀ s2 : DriverState, (BSP_NOR_Init s2 halOk).1 = (BSP_NOR_Init s halOk).1 :=
  ⟨rfl, rfl, rfl, rfl, rfl, rfl, rfl, fun _ => rfl⟩

/-- C8: `BSP_NOR_ReturnToReadMode` returns no status value and, on every
call, issues exactly one return-to-read-mode command with no status poll
afterwards. -/
theorem C8_returnToReadMode_single (s : DriverState) :
    BSP_NOR_ReturnToReadMode s = (s, [Cmd.returnToReadMode])
  ∧ (BSP_NOR_ReturnToReadMode s).2.countP Cmd.isGetStatus = 0 :=
  ⟨rfl, rfl⟩

/-- C9: `BSP_NOR_WriteData` called with count zero returns OK and issues
no program command and no status poll (empty command trace). -/
theorem C9_writeData_zero (s : DriverState) (polls : Nat → Bool)
    (data : Nat → Nat) (addr : Nat) :
    BSP_NOR_WriteData s polls addr data 0 = (s, [], NOR_STATUS_OK) :=
  rfl

/-- C10: `HAL_NOR_MspWait` terminates for every pin-value sequence and
every timeout budget `T`: each of its two polling loops performs at most
`T` body iterations, since each iteration decrements a countdown that
starts at `T` and the loop exits when it reaches zero. -/
theorem C10_mspWait_bounded (pin : Nat → Nat) (T : Nat) :
    (HAL_NOR_MspWait pin T).1 ≤ T ∧ (HAL_NOR_MspWait pin T).2 ≤ T :=
  ⟨waitLoop_iterations_le pin NOR_BUSY_STATE T 0,
   waitLoop_iterations_le pin NOR_READY_STATE T
     (waitLoop pin NOR_BUSY_STATE 0 T).2⟩

end NorBsp
